import Mathlib

/-!
Shallow embedding of the ISD-TEACHER-RATER Cloudflare Worker
(`src/index.js` and the related worker iterations under `src/unnamed/`).

Strings are modelled by Lean `String` viewed as its list of characters;
the inputs exercised by the claims are ASCII, for which JavaScript's
UTF-16 code-unit operations (`trim`, `slice`, `split`, regexes) agree
with the per-character operations defined here.  JSON numbers are
modelled as integers (every numeric input appearing in the claims is an
integer within the float-exact range).
-/

/-- Whitespace test used by the embedded `trim`, `split(/\s+/)` and
`parseInt` leading-whitespace skipping (ASCII whitespace; JavaScript
additionally trims exotic Unicode spaces, which no claim exercises). -/
def isWsChar (c : Char) : Bool :=
  c = ' ' || c = '\t' || c = '\n' || c = '\r' || c = '\x0b' || c = '\x0c'

/-- JavaScript `String.prototype.trim` on the character list. -/
def jsTrimList (l : List Char) : List Char :=
  ((l.dropWhile isWsChar).reverse.dropWhile isWsChar).reverse

/-- JavaScript `s.trim()`. -/
def jsTrim (s : String) : String :=
  String.mk (jsTrimList s.toList)

/-- JavaScript `s.slice(0, n)` (for the ASCII inputs considered,
code units coincide with characters). -/
def jsSlice (s : String) (n : Nat) : String :=
  String.mk (s.toList.take n)

/-- Helper for `replace(/\s+/g, " ")`: the flag records whether the
previous character was whitespace (i.e. we are inside a run that has
already emitted its single replacement space). -/
def collapseWsAux : Bool → List Char → List Char
  | _, [] => []
  | inRun, c :: cs =>
    if isWsChar c then
      if inRun then collapseWsAux true cs
      else ' ' :: collapseWsAux true cs
    else c :: collapseWsAux false cs

/-- `replace(/\s+/g, " ")`: collapse every maximal run of whitespace to
a single space. -/
def collapseWs (l : List Char) : List Char :=
  collapseWsAux false l

/-- `normalizeName` from `src/index.js` (also `src/unnamed/part_002`):
`String(s || "").replace(/\s+/g, " ").trim()`.  The `String(s || "")`
coercion is applied by the callers in this embedding; here the argument
is already a string. -/
def normalizeName (s : String) : String :=
  String.mk (jsTrimList (collapseWs s.toList))

/-- A JSON value as delivered by `request.json()` (numbers restricted
to integers, see the header note); `jUndef` stands for an absent
field (`undefined`). -/
inductive JSValue where
  | jUndef : JSValue
  | jNull : JSValue
  | jBool : Bool → JSValue
  | jNum : Int → JSValue
  | jStr : String → JSValue
deriving DecidableEq, Repr

open JSValue

/-- JavaScript truthiness of a value. -/
def jsTruthy : JSValue → Bool
  | jUndef => false
  | jNull => false
  | jBool b => b
  | jNum i => i ≠ 0
  | jStr s => s ≠ ""

/-- JavaScript `String(v)`. -/
def jsToString : JSValue → String
  | jUndef => "undefined"
  | jNull => "null"
  | jBool b => if b then "true" else "false"
  | jNum i => toString i
  | jStr s => s

/-- JavaScript `v ?? ""` followed by `String(_)`. -/
def jsStringOrEmpty : JSValue → String
  | jUndef => ""
  | jNull => ""
  | v => jsToString v

/-- Decimal digit test. -/
def isDigitChar (c : Char) : Bool :=
  '0' ≤ c && c ≤ '9'

/-- Value of a list of decimal digits (most significant first). -/
def digitsToNat (l : List Char) : Nat :=
  l.foldl (fun acc c => 10 * acc + (c.toNat - '0'.toNat)) 0

/-- `Number.parseInt(s, 10)` on a string: skip leading whitespace,
read an optional sign, then the longest prefix of decimal digits;
no digits means `NaN` (here `none`). -/
def parseIntStr (s : String) : Option Int :=
  let l := s.toList.dropWhile isWsChar
  match l with
  | '-' :: rest =>
    let ds := rest.takeWhile isDigitChar
    if ds.isEmpty then none else some (-(digitsToNat ds : Int))
  | '+' :: rest =>
    let ds := rest.takeWhile isDigitChar
    if ds.isEmpty then none else some ((digitsToNat ds : Int))
  | _ =>
    let ds := l.takeWhile isDigitChar
    if ds.isEmpty then none else some ((digitsToNat ds : Int))

/-- `Number.parseInt(v, 10)`: JavaScript first coerces the argument to
a string. -/
def parseIntJS (v : JSValue) : Option Int :=
  parseIntStr (jsToString v)

/-- `clampInt` from `src/index.js` lines 30-34 (identical in every
worker iteration):
`const x = Number.parseInt(n, 10); if (Number.isNaN(x)) return null;`
`return Math.min(max, Math.max(min, x));` -/
def clampInt (n : JSValue) (lo hi : Int) : Option Int :=
  match parseIntJS n with
  | none => none
  | some x => some (min hi (max lo x))

/-- `cleanStr` from `src/index.js` lines 36-39:
non-strings become `""`, strings are trimmed then `slice(0, maxLen)`.
The callers pass `body.field ?? ""`, so `null`/`undefined` also land in
the non-string branch with the same result `""`. -/
def cleanStr (s : JSValue) (maxLen : Nat) : String :=
  match s with
  | jStr str => jsSlice (jsTrim str) maxLen
  | _ => ""

/-! ## Name classifier -/

/-- Character class of the regex `/^[A-Za-z .'-]+$/`. -/
def isNameChar (c : Char) : Bool :=
  ('A' ≤ c && c ≤ 'Z') || ('a' ≤ c && c ≤ 'z') ||
  c = ' ' || c = '.' || c = '\'' || c = '-'

/-- ASCII lower-casing, as `String.prototype.toLowerCase` acts on the
inputs considered. -/
def jsToLowerList (l : List Char) : List Char :=
  l.map Char.toLower

/-- `pat` occurs as a contiguous substring of `s`
(JavaScript `s.includes(pat)`). -/
def listContains (s pat : List Char) : Bool :=
  match s with
  | [] => pat.isEmpty
  | _ :: tl => pat.isPrefixOf s || listContains tl pat

/-- `s.includes(pat)` on strings. -/
def strIncludes (s pat : String) : Bool :=
  listContains s.toList pat.toList

/-- The denylist `bad` of `looksLikePersonName`
(`src/index.js` lines 60-63, identical in `src/unnamed/part_002`). -/
def badWords : List String :=
  ["Skyline", "High", "School", "Staff", "Directory", "Search",
   "Phone", "Email", "Locations", "Titles", "Home",
   "Issaquah", "District", "Washington"]

/-- `for (const w of bad) if (lower.includes(w.toLowerCase())) return false;` -/
def containsBadWord (name : String) : Bool :=
  let lower := jsToLowerList name.toList
  badWords.any (fun w => listContains lower (jsToLowerList w.toList))

/-- Uppercase-letter test (`[A-Z]`). -/
def isUpperChar (c : Char) : Bool :=
  'A' ≤ c && c ≤ 'Z'

/-- The regex test `/[A-Z]{4,}/.test(name)`: some position starts a run
of at least four consecutive uppercase letters. -/
def hasUpperRun4 : List Char → Bool
  | a :: b :: c :: d :: rest =>
    (isUpperChar a && isUpperChar b && isUpperChar c && isUpperChar d) ||
    hasUpperRun4 (b :: c :: d :: rest)
  | _ => false

/-- `name.split(" ").filter(Boolean)`. -/
def splitWords (name : String) : List String :=
  ((name.toList.splitOn ' ').filter (fun w => ¬ w.isEmpty)).map String.mk

/-- `looksLikePersonName` from `src/index.js` lines 51-68.  Note this
iteration has NO uppercase-run check. -/
def looksLikePersonName (fullName : String) : Bool :=
  let name := normalizeName fullName
  if name = "" then false
  else if name.length < 5 || 40 < name.length then false
  else if ¬ name.toList.all isNameChar then false
  else
    let parts := splitWords name
    if parts.length < 2 || 3 < parts.length then false
    else if containsBadWord name then false
    else true

/-- `looksLikePersonName` from `src/unnamed/part_002` lines 355-378:
the same checks plus the final `if (/[A-Z]{4,}/.test(name)) return false;`. -/
def looksLikePersonNameV2 (fullName : String) : Bool :=
  let name := normalizeName fullName
  if name = "" then false
  else if name.length < 5 || 40 < name.length then false
  else if ¬ name.toList.all isNameChar then false
  else
    let parts := splitWords name
    if parts.length < 2 || 3 < parts.length then false
    else if containsBadWord name then false
    else if hasUpperRun4 name.toList then false
    else true

/-! ## Teachers and the roster upsert -/

/-- A row of the `teachers` table
(`teachers(id, name, school, source_url, created_at, updated_at)`). -/
structure Teacher where
  id : Int
  name : String
  school : String
  source_url : String
  created_at : String
  updated_at : String
deriving DecidableEq, Repr

/-- The `(name, school)` key match used by the unique index
`ON CONFLICT(name, school)`. -/
def teacherKeyMatch (name school : String) (t : Teacher) : Bool :=
  t.name == name && t.school == school

/-- Fresh surrogate id, modelling `INTEGER PRIMARY KEY AUTOINCREMENT`
(one larger than the maximum id in use). -/
def freshTeacherId (db : List Teacher) : Int :=
  (db.map Teacher.id).foldl max 0 + 1

/-- `upsertTeacher` from `src/index.js` lines 135-144 (identical in
`src/unnamed/part_002` lines 484-494):
`INSERT INTO teachers ... VALUES (?,?,?,?,?) ON CONFLICT(name, school)`
`DO UPDATE SET source_url=excluded.source_url, updated_at=excluded.updated_at`
bound to `(name, school, source_url || "", now, now)`.  The argument
`srcUrl = none` models an `undefined` `source_url`, which
`source_url || ""` turns into `""`. -/
def upsertTeacher (db : List Teacher) (name school : String)
    (srcUrl : Option String) (now : String) : List Teacher :=
  let bound := srcUrl.getD ""
  if db.any (teacherKeyMatch name school) then
    db.map (fun t =>
      if teacherKeyMatch name school t then
        { t with source_url := bound, updated_at := now }
      else t)
  else
    db ++ [{ id := freshTeacherId db, name := name, school := school,
             source_url := bound, created_at := now, updated_at := now }]

/-- The reconciliation loop of `runScrapeAll` in `src/index.js`
lines 146-163: every scraped name is upserted, with NO classifier
re-check (`for (const n of skyline.names) { await upsertTeacher(...); upserted++; }`).
Returns the roster together with the `upserted` counter. -/
def runScrapeAllBasicLoop (db : List Teacher) (names : List String)
    (school srcUrl now : String) : List Teacher × Nat :=
  names.foldl
    (fun acc n => (upsertTeacher acc.1 n school (some srcUrl) now, acc.2 + 1))
    (db, 0)

/-- The reconciliation loop of `runScrapeAll` in `src/unnamed/part_002`
lines 496-516: `if (!looksLikePersonName(n)) continue;` before each
upsert (the part_002 worker's classifier, i.e. the variant with the
uppercase-run check). -/
def runScrapeAllLoop (db : List Teacher) (names : List String)
    (school srcUrl now : String) : List Teacher × Nat :=
  names.foldl
    (fun acc n =>
      if looksLikePersonNameV2 n then
        (upsertTeacher acc.1 n school (some srcUrl) now, acc.2 + 1)
      else acc)
    (db, 0)

/-! ## Reviews: submission, moderation, aggregation -/

/-- The tuple bound by the `INSERT INTO reviews` of the
`POST /api/reviews` handler (`src/index.js` lines 344-349):
columns `(teacher_id, school, overall, difficulty, clarity,`
`would_take_again, comment, status, created_at)`.  `teacher_id` is the
string the handler binds (`String(body.teacher_id ?? "").trim()`). -/
structure NewReview where
  teacher_id : String
  school : String
  overall : Int
  difficulty : Int
  clarity : Int
  would_take_again : Int
  comment : String
  status : String
  created_at : String
deriving DecidableEq, Repr

/-- A persisted row of the `reviews` table (the `NewReview` columns
plus the surrogate `id`). -/
structure Review where
  id : Int
  teacher_id : String
  school : String
  overall : Int
  difficulty : Int
  clarity : Int
  would_take_again : Int
  comment : String
  status : String
  created_at : String
deriving DecidableEq, Repr

/-- The JSON body of `POST /api/reviews`; absent fields are `jUndef`. -/
structure SubmitBody where
  teacher_id : JSValue
  school : JSValue
  overall : JSValue
  difficulty : JSValue
  clarity : JSValue
  would_take_again : JSValue
  comment : JSValue
deriving DecidableEq, Repr

/-- Outcome of the submission handler: an error response
(`text(msg, status)`) or the inserted pending row (the handler then
replies `201 {ok:true, status:"pending"}`). -/
inductive SubmitOutcome where
  | reply : Nat → String → SubmitOutcome
  | created : NewReview → SubmitOutcome
deriving DecidableEq, Repr

/-- The teacher-existence check
`SELECT 1 FROM teachers WHERE id = ?` bound to the trimmed
`teacher_id` string; SQLite's INTEGER column affinity makes the bound
decimal string match the integer id. -/
def teacherIdExists (teachers : List Teacher) (tid : String) : Bool :=
  teachers.any (fun t => toString t.id == tid)

/-- The `POST /api/reviews` handler of `src/index.js` lines 326-352
(identical in `src/unnamed/part_002` lines 644-684): field
normalization via `cleanStr`/`clampInt`/truthiness, the four guard
checks in source order, then the insert with `status = 'pending'`. -/
def submitReview (teachers : List Teacher) (body : SubmitBody)
    (now : String) : SubmitOutcome :=
  let teacher_id := jsTrim (jsStringOrEmpty body.teacher_id)
  let school := cleanStr body.school 120
  let overall := clampInt body.overall 1 5
  let difficulty := clampInt body.difficulty 1 5
  let clarity := clampInt body.clarity 1 5
  let would_take_again : Int := if jsTruthy body.would_take_again then 1 else 0
  let comment := cleanStr body.comment 800
  if teacher_id = "" then .reply 400 "Missing teacher_id"
  else if school = "" then .reply 400 "Missing school"
  else
    match overall, difficulty, clarity with
    | some o, some d, some c =>
      if ¬ teacherIdExists teachers teacher_id then
        .reply 404 "Teacher not found"
      else
        .created { teacher_id := teacher_id, school := school, overall := o,
                   difficulty := d, clarity := c,
                   would_take_again := would_take_again, comment := comment,
                   status := "pending", created_at := now }
    | _, _, _ => .reply 400 "Ratings must be 1-5"

/-- Outcome of `setReviewStatus`: `{ok:false, error}` or
`{ok:true, updated}`. -/
inductive ModOutcome where
  | modError : String → ModOutcome
  | modUpdated : Nat → ModOutcome
deriving DecidableEq, Repr

/-- The `WHERE id = ? AND status='pending'` row filter of the
moderation UPDATE. -/
def reviewPendingMatch (id : Int) (r : Review) : Bool :=
  r.id == id && r.status == "pending"

/-- `setReviewStatus` from `src/index.js` lines 190-207:
`clampInt(reviewId, 1, 1_000_000_000)`, the status guard, then
`UPDATE reviews SET status = ? WHERE id = ? AND status='pending'`,
returning the number of changed rows.  The list is the `reviews`
table; the update rewrites exactly the rows matched by the WHERE
clause and `changes` counts them. -/
def setReviewStatus (db : List Review) (reviewId : JSValue)
    (status : String) : List Review × ModOutcome :=
  match clampInt reviewId 1 1000000000 with
  | none => (db, .modError "Invalid review id")
  | some id =>
    if ¬ (status == "approved" || status == "rejected") then
      (db, .modError "Invalid status")
    else
      (db.map (fun r =>
         if reviewPendingMatch id r then { r with status := status } else r),
       .modUpdated (db.filter (reviewPendingMatch id)).length)

/-- The approved-reviews filter of the stats query:
`WHERE teacher_id = ? AND status='approved'` (the teacher id bound as
the request's string parameter, matched through column affinity). -/
def approvedFor (db : List Review) (tid : String) : List Review :=
  db.filter (fun r => r.teacher_id == tid && r.status == "approved")

/-- SQL `AVG` over a list of integers: `NULL` (`none`) on the empty
set, otherwise the exact rational mean (D1 returns a float; the
embedding keeps the exact value). -/
def sqlAvg (xs : List Int) : Option ℚ :=
  if xs.isEmpty then none
  else some (((xs.map (fun x => (x : ℚ))).sum) / (xs.length : ℚ))

/-- The result row of the aggregation query of `GET /api/teacher`
(`src/index.js` lines 295-304). -/
structure TeacherStats where
  review_count : Nat
  avg_overall : Option ℚ
  avg_clarity : Option ℚ
  avg_difficulty : Option ℚ
  would_take_again_pct : Option ℚ
deriving DecidableEq, Repr

/-- The aggregation query of `GET /api/teacher`
(`src/index.js` lines 295-304): `COUNT(*)`, `AVG(overall)`,
`AVG(clarity)`, `AVG(difficulty)`, `AVG(would_take_again) * 100.0`
over `WHERE teacher_id = ? AND status='approved'`.
(`NULL * 100.0` is `NULL`.) -/
def teacherStats (db : List Review) (tid : String) : TeacherStats :=
  let rs := approvedFor db tid
  { review_count := rs.length,
    avg_overall := sqlAvg (rs.map Review.overall),
    avg_clarity := sqlAvg (rs.map Review.clarity),
    avg_difficulty := sqlAvg (rs.map Review.difficulty),
    would_take_again_pct :=
      (sqlAvg (rs.map Review.would_take_again)).map (fun q => q * 100) }

/-! ## Admin authentication -/

/-- JavaScript `String(v || "")`. -/
def jsStringFalsyEmpty (v : JSValue) : String :=
  if jsTruthy v then jsToString v else ""

/-- `requireAdminToken` from `src/index.js` lines 41-45 (used by all
four admin endpoints of that worker: pending, approve, reject,
scrape):
`const expected = String(env.ADMIN_TOKEN || "").trim();`
`if (!expected) return false;`
`return String(token || "").trim() === expected;`
`envToken = none` models an unset `ADMIN_TOKEN` binding. -/
def requireAdminToken (envToken : Option String) (token : JSValue) : Bool :=
  let expected := jsTrim (envToken.getD "")
  if expected = "" then false
  else jsTrim (jsStringFalsyEmpty token) == expected

/-- Result of `requireAdmin`: `{ok:true}` or `{ok:false, status, msg}`. -/
inductive AdminAuth where
  | allow : AdminAuth
  | deny : Nat → String → AdminAuth
deriving DecidableEq, Repr

/-- `requireAdmin` from `src/unnamed/part_002` lines 50-66 (used by
that worker's pending/approve/reject endpoints): token taken from the
JSON body if it is a string, else from the query string; an unset,
empty, or shorter-than-12-characters `ADMIN_TOKEN` yields the 500
misconfiguration result; otherwise exact (untrimmed) equality with a
nonempty token is required. -/
def requireAdmin (envToken : Option String) (queryToken : Option String)
    (bodyToken : JSValue) : AdminAuth :=
  let tokenFromQuery := queryToken.getD ""
  let tokenFromBody := match bodyToken with
    | jStr s => s
    | _ => ""
  let token := if tokenFromBody ≠ "" then tokenFromBody else tokenFromQuery
  match envToken with
  | none => .deny 500 "Server misconfigured: ADMIN_TOKEN not set"
  | some secret =>
    if secret = "" || secret.length < 12 then
      .deny 500 "Server misconfigured: ADMIN_TOKEN not set"
    else if token = "" || token ≠ secret then
      .deny 401 "Unauthorized"
    else .allow

/-! ## Directory scraper (`src/unnamed/part_002` lines 380-481) -/

/-- What one fetched directory page contributes, before filtering: the
text chunks collected by the name-selector handlers and the `href`
attributes collected by the anchor handler (`scrapeOneDirectoryPage`'s
`HTMLRewriter` callbacks).  A fetch oracle `String → Except String RawPage`
stands for the network: `.error` models a non-ok response
(`if (!res.ok) throw ...`) or a network failure. -/
structure RawPage where
  texts : List String
  hrefs : List String
deriving DecidableEq, Repr

/-- The pagination-link test of `PaginationLinkHandler`
(`src/unnamed/part_002` lines 420-431): `if (!href) return;` then keep
the href when
`href.includes("/staff") && href.includes("const_search_group_ids")`. -/
def linkFilter (href : String) : Bool :=
  href ≠ "" && strIncludes href "/staff" && strIncludes href "const_search_group_ids"

/-- `scheme://host` part of a URL (used to resolve root-relative
hrefs). -/
def urlOriginList : List Char → List Char
  | [] => []
  | c :: cs =>
    if c = ':' && ['/', '/'].isPrefixOf cs then
      ':' :: '/' :: '/' :: (cs.drop 2).takeWhile (fun d => d ≠ '/')
    else c :: urlOriginList cs

/-- `new URL(href, pageUrl).toString()` restricted to the cases the
directory pages produce: scheme-absolute hrefs pass through unchanged,
root-relative hrefs are resolved against the page's origin (other
relative forms are also resolved against the origin here; the real
resolver would use the base path, a case no claim exercises). -/
def resolveUrl (base href : String) : String :=
  if "http://".toList.isPrefixOf href.toList
      || "https://".toList.isPrefixOf href.toList then href
  else if href.toList.headD ' ' = '/' then
    String.mk (urlOriginList base.toList) ++ href
  else
    String.mk (urlOriginList base.toList) ++ "/" ++ href

/-- JavaScript `Set` insertion order: keep the first occurrence of
each element. -/
def dedupeAux (seen : List String) : List String → List String
  | [] => []
  | x :: xs =>
    if seen.contains x then dedupeAux seen xs
    else x :: dedupeAux (x :: seen) xs

/-- `[...someSet]` for a set built by repeated `add`. -/
def dedupe (l : List String) : List String :=
  dedupeAux [] l

/-- `scrapeOneDirectoryPage` from `src/unnamed/part_002` lines 395-449:
fetch the page (a failed fetch throws), collect the normalized card
texts that pass `looksLikePersonName` into the `names` set, collect
the hrefs passing `linkFilter` into the `pageLinks` set, and return
the names together with the links resolved to absolute URLs. -/
def scrapeOneDirectoryPage (f : String → Except String RawPage)
    (pageUrl : String) : Except String (List String × List String) :=
  match f pageUrl with
  | .error e => .error e
  | .ok raw =>
    let names :=
      dedupe ((raw.texts.map normalizeName).filter looksLikePersonNameV2)
    let absLinks :=
      (dedupe (raw.hrefs.filter linkFilter)).map (resolveUrl pageUrl)
    .ok (names, absLinks)

/-- Result of the full directory scrape: the aggregated name set and
the visited pages (`pages_visited` in the source is the size of the
visited set, i.e. `visited.length` here; the set is materialized as a
list so that single-visit bookkeeping is visible). -/
structure ScrapeOutput where
  names : List String
  visited : List String
deriving DecidableEq, Repr

/-- The `while (toVisit.length > 0 && seenPages.size < maxPages)` loop
of `scrapeSkylineStaffDirectory` (`src/unnamed/part_002` lines
461-474) with `maxPages = 10`: pop the queue head, skip empty or
already-seen URLs, mark the URL seen, fetch it (an exception aborts
the whole loop — there is no try/catch), accumulate names, and
enqueue the unseen pagination links. -/
def scrapeLoop (f : String → Except String RawPage)
    (seen toVisit allNames : List String) : Except String ScrapeOutput :=
  if 10 ≤ seen.length then .ok { names := allNames, visited := seen }
  else
    match toVisit with
    | [] => .ok { names := allNames, visited := seen }
    | url :: rest =>
      if url = "" || seen.contains url then scrapeLoop f seen rest allNames
      else
        match scrapeOneDirectoryPage f url with
        | .error e => .error e
        | .ok (names, pageUrls) =>
          scrapeLoop f (url :: seen)
            (rest ++ pageUrls.filter (fun p => ¬ (url :: seen).contains p))
            (allNames ++ names.filter (fun n => ¬ allNames.contains n))
termination_by (10 - seen.length, toVisit.length)

/-- `scrapeSkylineStaffDirectory` from `src/unnamed/part_002` lines
452-481, parameterized by the fetch oracle and the start URL
(`buildSkylineDirectoryUrl()` in the source):
`seenPages = {}`, `toVisit = [startUrl]`, then the loop above. -/
def scrapeSkylineStaffDirectory (f : String → Except String RawPage)
    (startUrl : String) : Except String ScrapeOutput :=
  scrapeLoop f [] [startUrl] []

/-- Fuel-indexed evaluator for `scrapeLoop`, used to compute concrete
runs (`scrapeLoop` itself is defined by well-founded recursion and
does not reduce definitionally); `none` means the fuel ran out. -/
def scrapeLoopFuel (f : String → Except String RawPage) :
    Nat → List String → List String → List String →
    Option (Except String ScrapeOutput)
  | 0, _, _, _ => none
  | fuel + 1, seen, toVisit, allNames =>
    if 10 ≤ seen.length then some (.ok { names := allNames, visited := seen })
    else
      match toVisit with
      | [] => some (.ok { names := allNames, visited := seen })
      | url :: rest =>
        if url = "" || seen.contains url then
          scrapeLoopFuel f fuel seen rest allNames
        else
          match scrapeOneDirectoryPage f url with
          | .error e => some (.error e)
          | .ok (names, pageUrls) =>
            scrapeLoopFuel f fuel (url :: seen)
              (rest ++ pageUrls.filter (fun p => ¬ (url :: seen).contains p))
              (allNames ++ names.filter (fun n => ¬ allNames.contains n))

instance {e a : Type} [DecidableEq e] [DecidableEq a] :
    DecidableEq (Except e a) := fun x y =>
  match x, y with
  | .error u, .error v =>
    if h : u = v then .isTrue (by rw [h]) else .isFalse (by simp [h])
  | .error _, .ok _ => .isFalse (by simp)
  | .ok _, .error _ => .isFalse (by simp)
  | .ok u, .ok v =>
    if h : u = v then .isTrue (by rw [h]) else .isFalse (by simp [h])

/-- Number of roster rows whose `(name, school)` key matches. -/
def pairCount (db : List Teacher) (n s : String) : Nat :=
  (db.filter (teacherKeyMatch n s)).length

/-- The token selection of `requireAdmin` (`src/unnamed/part_002`
lines 52-54): body token when it is a nonempty string, else the query
token. -/
def adminSuppliedToken (queryToken : Option String) (bodyToken : JSValue) :
    String :=
  let tokenFromQuery := queryToken.getD ""
  let tokenFromBody := match bodyToken with
    | jStr s => s
    | _ => ""
  if tokenFromBody ≠ "" then tokenFromBody else tokenFromQuery

/-- Fetch oracle for the C7 counterexample: the first directory page
succeeds, carrying one name and one pagination link; every other page
(in particular the linked second page) fails. -/
def fetchC7 : String → Except String RawPage
  | "https://skyline.isd411.org/staff?const_search_group_ids=289&p=1" =>
    .ok { texts := ["Alice Brown"],
          hrefs :=
            ["https://skyline.isd411.org/staff?const_search_group_ids=289&p=2"] }
  | _ => .error "Directory fetch failed (500)"

/-- Fetch oracle for the C8 counterexample: the start page links to a
DIFFERENT host whose URL nevertheless matches the substring pattern;
every other page is empty. -/
def fetchC8 : String → Except String RawPage
  | "https://skyline.isd411.org/staff?const_search_group_ids=289" =>
    .ok { texts := [],
          hrefs := ["https://attacker.example/staff?const_search_group_ids=1"] }
  | _ => .ok { texts := [], hrefs := [] }

/-- A run of the fuel-indexed evaluator that finishes agrees with
`scrapeLoop`. -/
theorem scrapeLoopFuel_sound (f : String → Except String RawPage) :
    ∀ (fuel : Nat) (seen toVisit allNames : List String)
      (r : Except String ScrapeOutput),
      scrapeLoopFuel f fuel seen toVisit allNames = some r →
      scrapeLoop f seen toVisit allNames = r := by
  intro fuel
  induction fuel with
  | zero => intro seen toVisit allNames r h; simp [scrapeLoopFuel] at h
  | succ n ih =>
    intro seen toVisit allNames r h
    rw [scrapeLoop.eq_def]
    simp only [scrapeLoopFuel] at h
    split at h
    · simp_all
    · split at h
      · simp_all
      · split at h
        · simp only [*, if_true]
          exact ih _ _ _ _ h
        · simp only [*, if_false]
          split at h
          · simp_all
          · simp_all [ih _ _ _ _ h]

/-! ## General helper lemmas -/

theorem map_eq_self_of_mem {α : Type} (f : α → α) (l : List α)
    (h : ∀ x ∈ l, f x = x) : l.map f = l := by
  induction l with
  | nil => rfl
  | cons a t ih =>
    simp only [List.map_cons]
    rw [h a (by simp), ih (fun x hx => h x (by simp [hx]))]

theorem filter_eq_nil_of_mem {α : Type} (p : α → Bool) (l : List α)
    (h : ∀ x ∈ l, p x = false) : l.filter p = [] := by
  induction l with
  | nil => rfl
  | cons a t ih =>
    simp only [List.filter_cons, h a (by simp)]
    exact ih (fun x hx => h x (by simp [hx]))

theorem filter_map_comm {α : Type} (f : α → α) (p : α → Bool) (l : List α)
    (h : ∀ x, p (f x) = p x) : (l.map f).filter p = (l.filter p).map f := by
  induction l with
  | nil => rfl
  | cons a t ih =>
    simp only [List.map_cons, List.filter_cons, h a]
    cases hp : p a <;> simp [hp, ih]

/-! ## C1: moderation transitions are write-once compare-and-swap -/

/-- Unfolding of `setReviewStatus` when the review id clamps to a
value and the target status is valid. -/
theorem setReviewStatus_valid_eq (db : List Review) (rid : JSValue)
    (st : String) (cid : Int)
    (hc : clampInt rid 1 1000000000 = some cid)
    (hst : (st == "approved" || st == "rejected") = true) :
    setReviewStatus db rid st =
      (db.map (fun r =>
         if reviewPendingMatch cid r then { r with status := st } else r),
       .modUpdated (db.filter (reviewPendingMatch cid)).length) := by
  simp [setReviewStatus, hc, hst]

/-- C1: for a valid target status, the moderation update (i) never
changes a row whose status is not `pending` (no transition out of
`approved`/`rejected`), (ii) touches a row only if that row is
`pending` and has the clamped id, and then sets exactly the target
status, and (iii) a second `Transition` with the same review id
reports `updated = 0` and leaves the table unchanged. -/
theorem C1_setReviewStatus_write_once
    (db : List Review) (rid : JSValue) (target target2 : String) (cid : Int)
    (hc : clampInt rid 1 1000000000 = some cid)
    (ht : target = "approved" ∨ target = "rejected")
    (ht2 : target2 = "approved" ∨ target2 = "rejected") :
    ((setReviewStatus db rid target).1.length = db.length) ∧
    (∀ i, (hi : i < db.length) →
       (hj : i < (setReviewStatus db rid target).1.length) →
       ((db[i].status ≠ "pending" → (setReviewStatus db rid target).1[i] = db[i]) ∧
        ((setReviewStatus db rid target).1[i] ≠ db[i] →
           db[i].status = "pending" ∧ db[i].id = cid ∧
           (setReviewStatus db rid target).1[i] = { db[i] with status := target }))) ∧
    (setReviewStatus (setReviewStatus db rid target).1 rid target2 =
       ((setReviewStatus db rid target).1, ModOutcome.modUpdated 0)) := by
  have htb : (target == "approved" || target == "rejected") = true := by
    rcases ht with h | h <;> simp [h]
  have htb2 : (target2 == "approved" || target2 == "rejected") = true := by
    rcases ht2 with h | h <;> simp [h]
  have hne : (target == "pending") = false := by
    rcases ht with h | h <;> simp [h]
  have hdef := setReviewStatus_valid_eq db rid target cid hc htb
  have hmatch : ∀ r : Review, reviewPendingMatch cid
      (if reviewPendingMatch cid r then { r with status := target } else r) = false := by
    intro r
    by_cases hm : reviewPendingMatch cid r = true
    · simp only [hm, if_true]
      simp [reviewPendingMatch, hne]
    · simp only [Bool.not_eq_true] at hm
      simp [hm]
  have hafter : ∀ r ∈ (setReviewStatus db rid target).1,
      reviewPendingMatch cid r = false := by
    intro r hr
    rw [hdef] at hr
    simp only [List.mem_map] at hr
    obtain ⟨r0, _, hr0⟩ := hr
    rw [← hr0]
    exact hmatch r0
  refine ⟨by simp [hdef], ?_, ?_⟩
  · intro i hi hj
    have hval : (setReviewStatus db rid target).1[i] =
        (if reviewPendingMatch cid db[i] then
           { db[i] with status := target } else db[i]) := by
      simp [hdef]
    constructor
    · intro hst
      have hm : reviewPendingMatch cid db[i] = false := by
        simp [reviewPendingMatch, hst]
      rw [hval, hm]
      simp
    · intro hchanged
      by_cases hm : reviewPendingMatch cid db[i] = true
      · have hparts := hm
        simp only [reviewPendingMatch, Bool.and_eq_true, beq_iff_eq] at hparts
        exact ⟨hparts.2, hparts.1, by rw [hval, hm]; simp⟩
      · exfalso
        apply hchanged
        simp only [Bool.not_eq_true] at hm
        rw [hval, hm]
        simp
  · have hdef2 := setReviewStatus_valid_eq
      (setReviewStatus db rid target).1 rid target2 cid hc htb2
    rw [hdef2]
    have hmap : (setReviewStatus db rid target).1.map (fun r =>
        if reviewPendingMatch cid r then { r with status := target2 } else r) =
        (setReviewStatus db rid target).1 := by
      apply map_eq_self_of_mem
      intro x hx
      simp [hafter x hx]
    have hfil : ((setReviewStatus db rid target).1.filter
        (reviewPendingMatch cid)) = [] :=
      filter_eq_nil_of_mem _ _ hafter
    rw [hmap, hfil]
    rfl

/-- Concrete instantiation of `C1_setReviewStatus_write_once`: approving
review 1 twice in a one-row pending table; the second call changes
nothing and reports `updated = 0`. -/
theorem C1_setReviewStatus_write_once_witness :
    setReviewStatus
      (setReviewStatus
        [{ id := 1, teacher_id := "1", school := "S", overall := 5,
           difficulty := 3, clarity := 4, would_take_again := 1,
           comment := "great", status := "pending", created_at := "t0" }]
        (jNum 1) "approved").1
      (jNum 1) "approved" =
    ((setReviewStatus
        [{ id := 1, teacher_id := "1", school := "S", overall := 5,
           difficulty := 3, clarity := 4, would_take_again := 1,
           comment := "great", status := "pending", created_at := "t0" }]
        (jNum 1) "approved").1, ModOutcome.modUpdated 0) :=
  (C1_setReviewStatus_write_once _ (jNum 1) "approved" "approved" 1
    (by decide) (Or.inl rfl) (Or.inl rfl)).2.2

/-! ## C5: the (name, school) upsert is unique-key and in-place -/

theorem pairCount_map_update (db : List Teacher)
    (name school bound now n s : String) :
    pairCount (db.map (fun t =>
      if teacherKeyMatch name school t then
        { t with source_url := bound, updated_at := now }
      else t)) n s = pairCount db n s := by
  unfold pairCount
  rw [filter_map_comm]
  · simp
  · intro t
    by_cases h : teacherKeyMatch name school t = true
    · rw [if_pos h]
      simp [teacherKeyMatch]
    · rw [if_neg h]

theorem pairCount_append (db l2 : List Teacher) (n s : String) :
    pairCount (db ++ l2) n s = pairCount db n s + pairCount l2 n s := by
  simp [pairCount, List.filter_append]

theorem any_key_iff_pairCount_pos (db : List Teacher) (n s : String) :
    db.any (teacherKeyMatch n s) = true ↔ 0 < pairCount db n s := by
  rw [pairCount, ← List.countP_eq_length_filter, List.countP_pos_iff]
  simp [List.any_eq_true]

/-- Upserting makes the key's row count exactly 1 (provided the unique
index held before, i.e. the count was at most 1). -/
theorem upsert_pairCount_self (db : List Teacher) (name school : String)
    (u : Option String) (now : String)
    (hU : pairCount db name school ≤ 1) :
    pairCount (upsertTeacher db name school u now) name school = 1 := by
  unfold upsertTeacher
  by_cases h : db.any (teacherKeyMatch name school) = true
  · rw [if_pos h, pairCount_map_update]
    have := (any_key_iff_pairCount_pos db name school).mp h
    omega
  · rw [if_neg h, pairCount_append]
    have h0 : pairCount db name school = 0 := by
      by_contra hc
      exact h ((any_key_iff_pairCount_pos db name school).mpr (by omega))
    rw [h0]
    simp [pairCount, List.filter_cons, teacherKeyMatch]

/-- Upserting one key never changes the row count of a different key. -/
theorem upsert_pairCount_other (db : List Teacher) (name school : String)
    (u : Option String) (now : String) (n s : String)
    (h : ¬ (n = name ∧ s = school)) :
    pairCount (upsertTeacher db name school u now) n s = pairCount db n s := by
  unfold upsertTeacher
  by_cases ha : db.any (teacherKeyMatch name school) = true
  · rw [if_pos ha, pairCount_map_update]
  · rw [if_neg ha, pairCount_append]
    have : teacherKeyMatch n s
        { id := freshTeacherId db, name := name, school := school,
          source_url := u.getD "", created_at := now, updated_at := now } = false := by
      simp only [teacherKeyMatch]
      by_cases h1 : name = n
      · by_cases h2 : school = s
        · exact absurd ⟨h1.symm, h2.symm⟩ h
        · simp [h2]
      · simp [h1]
    simp [pairCount, List.filter_cons, this]

/-- When a row with the key exists, the upsert takes the
`DO UPDATE` branch. -/
theorem upsertTeacher_update_eq (db : List Teacher) (name school : String)
    (u : Option String) (now : String)
    (h : db.any (teacherKeyMatch name school) = true) :
    upsertTeacher db name school u now =
      db.map (fun t =>
        if teacherKeyMatch name school t then
          { t with source_url := u.getD "", updated_at := now }
        else t) := by
  simp only [upsertTeacher]
  rw [if_pos h]

/-- C5: with the unique index in force (at most one row for the key),
upserting the same `(name, school)` twice leaves exactly one row for
that key; the second upsert rewrites that row in place, changing only
`source_url` and `updated_at` (so `id`, `name`, `school` and
`created_at` are untouched); and row counts of every other key are
unchanged, so the roster never acquires a duplicate pair. -/
theorem C5_upsertTeacher_unique_inplace
    (db : List Teacher) (name school : String) (u1 u2 : Option String)
    (t1 t2 : String)
    (hU : pairCount db name school ≤ 1) :
    pairCount (upsertTeacher (upsertTeacher db name school u1 t1)
      name school u2 t2) name school = 1 ∧
    (∃ r1,
       (upsertTeacher db name school u1 t1).filter
         (teacherKeyMatch name school) = [r1] ∧
       (upsertTeacher (upsertTeacher db name school u1 t1)
          name school u2 t2).filter (teacherKeyMatch name school) =
         [{ r1 with source_url := u2.getD "", updated_at := t2 }]) ∧
    (∀ n s, ¬ (n = name ∧ s = school) →
       pairCount (upsertTeacher (upsertTeacher db name school u1 t1)
         name school u2 t2) n s = pairCount db n s) := by
  have h1 : pairCount (upsertTeacher db name school u1 t1) name school = 1 :=
    upsert_pairCount_self db name school u1 t1 hU
  have hany : (upsertTeacher db name school u1 t1).any
      (teacherKeyMatch name school) = true :=
    (any_key_iff_pairCount_pos _ name school).mpr (by omega)
  obtain ⟨r1, hr1⟩ := List.length_eq_one.mp h1
  have hk1 : teacherKeyMatch name school r1 = true := by
    have : r1 ∈ (upsertTeacher db name school u1 t1).filter
        (teacherKeyMatch name school) := by simp [hr1]
    exact (List.mem_filter.mp this).2
  have hdb2 : upsertTeacher (upsertTeacher db name school u1 t1)
      name school u2 t2 =
      (upsertTeacher db name school u1 t1).map (fun t =>
        if teacherKeyMatch name school t then
          { t with source_url := u2.getD "", updated_at := t2 }
        else t) :=
    upsertTeacher_update_eq _ name school u2 t2 hany
  refine ⟨?_, ⟨r1, hr1, ?_⟩, ?_⟩
  · exact upsert_pairCount_self _ name school u2 t2 (by omega)
  · rw [hdb2, filter_map_comm]
    · rw [hr1]
      simp [hk1]
    · intro t
      by_cases h : teacherKeyMatch name school t = true
      · rw [if_pos h]
        simp [teacherKeyMatch]
      · rw [if_neg h]
  · intro n s hns
    rw [upsert_pairCount_other _ name school u2 t2 n s hns,
        upsert_pairCount_other db name school u1 t1 n s hns]

/-- Concrete instantiation of `C5_upsertTeacher_unique_inplace`:
upserting `("Alice Brown", "Skyline High School")` twice into an empty
roster leaves exactly one row for that pair. -/
theorem C5_upsertTeacher_unique_inplace_witness :
    pairCount (upsertTeacher (upsertTeacher [] "Alice Brown"
      "Skyline High School" (some "u1") "T1")
      "Alice Brown" "Skyline High School" (some "u2") "T2")
      "Alice Brown" "Skyline High School" = 1 :=
  (C5_upsertTeacher_unique_inplace [] "Alice Brown" "Skyline High School"
    (some "u1") (some "u2") "T1" "T2" (by decide)).1

/-! ## C6: aggregation is approved-only and null on no data -/

theorem approvedFor_idem (db : List Review) (tid : String) :
    approvedFor (approvedFor db tid) tid = approvedFor db tid := by
  simp [approvedFor, List.filter_filter]

/-- C6: the per-teacher statistics depend only on that teacher's
`approved` reviews (restricting the table to them first changes
nothing), and a teacher with zero approved reviews gets
`review_count = 0` with all four averages `NULL` (`none`), never `0`. -/
theorem C6_teacherStats_approved_only (db : List Review) (tid : String) :
    teacherStats db tid = teacherStats (approvedFor db tid) tid ∧
    (approvedFor db tid = [] →
       teacherStats db tid =
         { review_count := 0, avg_overall := none, avg_clarity := none,
           avg_difficulty := none, would_take_again_pct := none }) := by
  constructor
  · simp [teacherStats, approvedFor_idem]
  · intro h
    simp [teacherStats, h, sqlAvg]

/-- Concrete instantiation of `C6_teacherStats_approved_only`: a table
holding only a pending review for teacher "7" aggregates to count 0
and four `none` averages. -/
theorem C6_teacherStats_approved_only_witness :
    teacherStats
      [{ id := 1, teacher_id := "7", school := "S", overall := 5,
         difficulty := 3, clarity := 4, would_take_again := 1,
         comment := "x", status := "pending", created_at := "t0" }] "7" =
      { review_count := 0, avg_overall := none, avg_clarity := none,
        avg_difficulty := none, would_take_again_pct := none } :=
  (C6_teacherStats_approved_only _ "7").2 (by decide)

/-! ## C2: boundary ratings are clamped, not rejected -/

/-- C2 counterexample: a submission with `overall = 0` (and otherwise
valid fields against an existing teacher) is NOT rejected with the
ratings error — the handler inserts a pending row with `overall`
clamped to 1. -/
theorem C2_counterexample_overall_zero_inserted :
    submitReview
      [{ id := 1, name := "Alice Brown", school := "Skyline High School",
         source_url := "", created_at := "t0", updated_at := "t0" }]
      { teacher_id := jStr "1", school := jStr "Skyline High School",
        overall := jNum 0, difficulty := jNum 3, clarity := jNum 4,
        would_take_again := jBool true, comment := jStr "ok" }
      "2024-01-01" =
    .created { teacher_id := "1", school := "Skyline High School",
               overall := 1, difficulty := 3, clarity := 4,
               would_take_again := 1, comment := "ok",
               status := "pending", created_at := "2024-01-01" } := by
  decide

/-- C2 (amended): with otherwise valid fields against an existing
teacher, a submission whose `overall` is any single-digit integer `v`
is accepted and persisted as pending with `overall` clamped to
`min 5 (max 1 v)`: `0` is stored as `1`, `6` as `5`, while `1` and `5`
are stored unchanged; no ratings-out-of-range rejection occurs for
such values. -/
theorem C2_submitReview_overall_clamped
    (teachers : List Teacher) (tid sch cm now : String) (wta : JSValue)
    (v : Int) (hv : 0 ≤ v ∧ v ≤ 9)
    (htid : jsTrim tid ≠ "")
    (hsch : jsSlice (jsTrim sch) 120 ≠ "")
    (hex : teacherIdExists teachers (jsTrim tid) = true) :
    submitReview teachers
      { teacher_id := jStr tid, school := jStr sch, overall := jNum v,
        difficulty := jNum 3, clarity := jNum 4, would_take_again := wta,
        comment := jStr cm } now =
    .created { teacher_id := jsTrim tid, school := jsSlice (jsTrim sch) 120,
               overall := min 5 (max 1 v), difficulty := 3, clarity := 4,
               would_take_again := if jsTruthy wta then 1 else 0,
               comment := jsSlice (jsTrim cm) 800,
               status := "pending", created_at := now } := by
  obtain ⟨h0, h9⟩ := hv
  have hov : clampInt (jNum v) 1 5 = some (min 5 (max 1 v)) := by
    interval_cases v <;> decide
  have hd3 : clampInt (jNum 3) 1 5 = some 3 := by decide
  have hc4 : clampInt (jNum 4) 1 5 = some 4 := by decide
  simp [submitReview, jsStringOrEmpty, jsToString, cleanStr,
        htid, hsch, hov, hd3, hc4, hex]

/-- Concrete instantiation of `C2_submitReview_overall_clamped` at
`overall = 6`: the submission is accepted and stored with overall 5. -/
theorem C2_submitReview_overall_clamped_witness :
    submitReview
      [{ id := 1, name := "Alice Brown", school := "Skyline High School",
         source_url := "", created_at := "t0", updated_at := "t0" }]
      { teacher_id := jStr "1", school := jStr "SHS",
        overall := jNum 6, difficulty := jNum 3, clarity := jNum 4,
        would_take_again := jBool false, comment := jStr "meh" }
      "2024-01-02" =
    .created { teacher_id := "1", school := "SHS",
               overall := 5, difficulty := 3, clarity := 4,
               would_take_again := 0, comment := "meh",
               status := "pending", created_at := "2024-01-02" } := by
  have h := C2_submitReview_overall_clamped
    [{ id := 1, name := "Alice Brown", school := "Skyline High School",
       source_url := "", created_at := "t0", updated_at := "t0" }]
    "1" "SHS" "meh" "2024-01-02" (jBool false) 6
    (by decide) (by decide) (by decide) (by decide)
  simpa using h

/-! ## C10: invariants of every inserted review row -/

theorem string_mk_length (l : List Char) : (String.mk l).length = l.length :=
  rfl

theorem cleanStr_length_le (s : JSValue) (n : Nat) :
    (cleanStr s n).length ≤ n := by
  cases s
  case jStr str =>
    show (String.mk ((jsTrim str).toList.take n)).length ≤ n
    rw [string_mk_length, List.length_take]
    omega
  all_goals simp [cleanStr]

/-- A successful clamp into [1,5] yields a value in [1,5]. -/
theorem clampInt_mem (v : JSValue) (x : Int)
    (h : clampInt v 1 5 = some x) : 1 ≤ x ∧ x ≤ 5 := by
  simp only [clampInt] at h
  split at h
  · simp at h
  case _ y hy =>
    simp only [Option.some_inj] at h
    have h1 : (1 : Int) ≤ max 1 y := le_max_left 1 y
    have h2 : min 5 (max 1 y) ≤ 5 := min_le_left 5 (max 1 y)
    have h3 : (1 : Int) ≤ min 5 (max 1 y) := le_min (by norm_num) h1
    omega

/-- C10 (amended): every row the submission handler inserts has the
three ratings clamped into [1,5], `would_take_again` equal to 0 or 1,
`school` equal to the trimmed-then-truncated input (length at most
120), `comment` equal to the trimmed-then-truncated input (length at
most 800), status `pending`, and the handler's timestamp.  (The
truncation can leave trailing whitespace, so the stored string is not
always its own `trim` — see the counterexample.) -/
theorem C10_submitReview_row_invariant
    (teachers : List Teacher) (body : SubmitBody) (now : String)
    (r : NewReview) (h : submitReview teachers body now = .created r) :
    1 ≤ r.overall ∧ r.overall ≤ 5 ∧
    1 ≤ r.difficulty ∧ r.difficulty ≤ 5 ∧
    1 ≤ r.clarity ∧ r.clarity ≤ 5 ∧
    (r.would_take_again = 0 ∨ r.would_take_again = 1) ∧
    r.school = cleanStr body.school 120 ∧ r.school.length ≤ 120 ∧
    r.comment = cleanStr body.comment 800 ∧ r.comment.length ≤ 800 ∧
    r.status = "pending" ∧ r.created_at = now := by
  simp only [submitReview] at h
  split at h
  · simp at h
  · split at h
    · simp at h
    · split at h
      case _ ov dv cv o d c hov hdv hcv =>
        split at h
        · simp at h
        · obtain ⟨ho1, ho2⟩ := clampInt_mem _ _ hov
          obtain ⟨hd1, hd2⟩ := clampInt_mem _ _ hdv
          obtain ⟨hc1, hc2⟩ := clampInt_mem _ _ hcv
          cases h
          refine ⟨ho1, ho2, hd1, hd2, hc1, hc2, ?_, rfl,
            cleanStr_length_le body.school 120, rfl,
            cleanStr_length_le body.comment 800, rfl, rfl⟩
          by_cases hb : jsTruthy body.would_take_again = true <;> simp [hb]
      · simp at h

/-- C10 counterexample: a 121-character school whose 120th character is
a space is trimmed (a no-op here) and then truncated, so the inserted
row's `school` ends in a space — the stored string is not a trimmed
string (`trim` changes it), refuting the claim's trimming clause. -/
theorem C10_counterexample_school_not_trimmed :
    submitReview
      [{ id := 1, name := "Alice Brown", school := "Skyline High School",
         source_url := "", created_at := "t0", updated_at := "t0" }]
      { teacher_id := jStr "1",
        school := jStr (String.mk (List.replicate 119 'A' ++ [' ', 'B'])),
        overall := jNum 5, difficulty := jNum 3, clarity := jNum 4,
        would_take_again := jBool true, comment := jStr "ok" }
      "2024-01-01" =
    .created { teacher_id := "1",
               school := String.mk (List.replicate 119 'A' ++ [' ']),
               overall := 5, difficulty := 3, clarity := 4,
               would_take_again := 1, comment := "ok",
               status := "pending", created_at := "2024-01-01" } ∧
    jsTrim (String.mk (List.replicate 119 'A' ++ [' '])) ≠
      String.mk (List.replicate 119 'A' ++ [' ']) := by
  constructor
  · decide
  · decide

/-- Concrete instantiation of `C10_submitReview_row_invariant` on a
valid submission. -/
theorem C10_submitReview_row_invariant_witness :
    (1 : Int) ≤ 4 ∧ (4 : Int) ≤ 5 ∧
    (1 : Int) ≤ 3 ∧ (3 : Int) ≤ 5 ∧
    (1 : Int) ≤ 2 ∧ (2 : Int) ≤ 5 ∧
    ((1 : Int) = 0 ∨ (1 : Int) = 1) ∧
    "SHS" = cleanStr (jStr "SHS") 120 ∧ ("SHS").length ≤ 120 ∧
    "ok" = cleanStr (jStr "ok") 800 ∧ ("ok").length ≤ 800 ∧
    "pending" = "pending" ∧ "2024-01-03" = "2024-01-03" :=
  C10_submitReview_row_invariant
    [{ id := 1, name := "Alice Brown", school := "Skyline High School",
       source_url := "", created_at := "t0", updated_at := "t0" }]
    { teacher_id := jStr "1", school := jStr "SHS",
      overall := jNum 4, difficulty := jNum 3, clarity := jNum 2,
      would_take_again := jBool true, comment := jStr "ok" }
    "2024-01-03"
    { teacher_id := "1", school := "SHS", overall := 4, difficulty := 3,
      clarity := 2, would_take_again := 1, comment := "ok",
      status := "pending", created_at := "2024-01-03" }
    (by decide)

/-! ## C3: admin authentication -/

/-- C3 counterexample: the main worker's guard (`requireAdminToken`,
which protects all four admin operations including scrape) accepts a
matching token even though the configured secret is only 3 characters
long — far below the 12-character minimum the `requireAdmin` variant
enforces — so a too-short secret does NOT fail closed with a
misconfiguration error. -/
theorem C3_counterexample_short_secret_accepted :
    requireAdminToken (some "abc") (jStr "abc") = true ∧
    ("abc").length < 12 := by
  constructor
  · decide
  · decide

/-- C3 (amended): the main worker's `requireAdminToken` (pending,
approve, reject, scrape) fails closed when the secret is unset or
trims to empty — every token is refused, though as a plain `false`
(the handlers answer 401 Unauthorized), not a distinct
server-misconfiguration error — and applies NO minimum-length check:
with any nonempty secret, access is granted exactly when the trimmed
supplied token equals the trimmed secret.  The `requireAdmin` variant
(part_002: pending, approve, reject) does return the 500
misconfiguration error whenever the secret is unset, empty, or
shorter than 12 characters, and otherwise allows exactly the untrimmed
exact match. -/
theorem C3_admin_auth_characterization :
    (∀ t, requireAdminToken none t = false) ∧
    (∀ s t, jsTrim s = "" → requireAdminToken (some s) t = false) ∧
    (∀ s t, jsTrim s ≠ "" →
       (requireAdminToken (some s) t = true ↔
          jsTrim (jsStringFalsyEmpty t) = jsTrim s)) ∧
    (∀ q b, requireAdmin none q b =
       .deny 500 "Server misconfigured: ADMIN_TOKEN not set") ∧
    (∀ e q b, e.length < 12 → requireAdmin (some e) q b =
       .deny 500 "Server misconfigured: ADMIN_TOKEN not set") ∧
    (∀ e q b, 12 ≤ e.length →
       (requireAdmin (some e) q b = .allow ↔ adminSuppliedToken q b = e)) := by
  have htrimnil : jsTrim "" = "" := by decide
  refine ⟨?_, ?_, ?_, ?_, ?_, ?_⟩
  · intro t
    simp [requireAdminToken, htrimnil]
  · intro s t hs
    simp [requireAdminToken, hs]
  · intro s t hs
    simp [requireAdminToken, hs]
  · intro q b
    simp [requireAdmin]
  · intro e q b h
    simp [requireAdmin, h]
  · intro e q b h
    have hne : e ≠ "" := by
      intro he
      rw [he] at h
      simp at h
    have hre : requireAdmin (some e) q b =
        if e = "" || e.length < 12 then
          .deny 500 "Server misconfigured: ADMIN_TOKEN not set"
        else if adminSuppliedToken q b = "" || adminSuppliedToken q b ≠ e then
          .deny 401 "Unauthorized"
        else .allow := rfl
    rw [hre]
    rw [if_neg (by simp [hne]; omega)]
    generalize adminSuppliedToken q b = tok
    by_cases htok : tok = e
    · subst htok
      rw [if_neg (by simp [hne])]
      simp
    · rw [if_pos (by simp [htok])]
      simp [htok]

/-- Concrete instantiation of `C3_admin_auth_characterization`: an
unset secret refuses any token; a short secret yields the 500
misconfiguration result in the `requireAdmin` variant; a 15-character
secret admits exactly the matching token. -/
theorem C3_admin_auth_characterization_witness :
    requireAdminToken none (jStr "anything") = false ∧
    requireAdmin (some "shorty") none (jStr "shorty") =
      .deny 500 "Server misconfigured: ADMIN_TOKEN not set" ∧
    requireAdmin (some "averylongsecret") none (jStr "averylongsecret") =
      .allow :=
  ⟨C3_admin_auth_characterization.1 (jStr "anything"),
   C3_admin_auth_characterization.2.2.2.2.1 "shorty" none (jStr "shorty")
     (by decide),
   (C3_admin_auth_characterization.2.2.2.2.2 "averylongsecret" none
     (jStr "averylongsecret") (by decide)).mpr (by decide)⟩

/-! ## C9: the uppercase-run rule -/

/-- C9 counterexample: the `src/index.js` classifier (cited by the
claim) has no uppercase-run check and accepts "ABCDE Smith" even
though its normalization contains a run of five consecutive uppercase
letters. -/
theorem C9_counterexample_no_uppercase_check :
    looksLikePersonName "ABCDE Smith" = true ∧
    hasUpperRun4 (normalizeName "ABCDE Smith").toList = true := by
  constructor
  · decide
  · decide

/-- C9 (amended): the part_002 classifier (`looksLikePersonNameV2`)
does return false whenever the normalized candidate contains a run of
four or more consecutive uppercase letters; the `src/index.js`
iteration (`looksLikePersonName`) omits this check. -/
theorem C9_v2_rejects_uppercase_run (s : String)
    (h : hasUpperRun4 (normalizeName s).toList = true) :
    looksLikePersonNameV2 s = false := by
  simp only [looksLikePersonNameV2]
  split_ifs <;> simp_all

/-- Concrete instantiation of `C9_v2_rejects_uppercase_run` at
"ABCD Smith". -/
theorem C9_v2_rejects_uppercase_run_witness :
    hasUpperRun4 (normalizeName "ABCD Smith").toList = true ∧
    looksLikePersonNameV2 "ABCD Smith" = false :=
  ⟨by decide, C9_v2_rejects_uppercase_run "ABCD Smith" (by decide)⟩

/-! ## C4: reconciliation-time re-classification -/

/-- C4 counterexample: the `src/index.js` `runScrapeAll` loop (cited
by the claim) performs no classifier re-check — fed the candidate
"1234 5678", which both classifiers reject, it still upserts a Teacher
row for it. -/
theorem C4_counterexample_basic_loop_persists_failing_name :
    (runScrapeAllBasicLoop [] ["1234 5678"] "Skyline High School"
      "u" "t").1 =
      [{ id := 1, name := "1234 5678", school := "Skyline High School",
         source_url := "u", created_at := "t", updated_at := "t" }] ∧
    looksLikePersonName "1234 5678" = false ∧
    looksLikePersonNameV2 "1234 5678" = false := by
  refine ⟨by decide, by decide, by decide⟩

/-- Any row of an upsert result either shares its `(name, school)` key
with a pre-existing row or carries exactly the upserted key. -/
theorem mem_upsertTeacher (db : List Teacher) (n s : String)
    (u : Option String) (now : String) :
    ∀ t ∈ upsertTeacher db n s u now,
      (∃ t0 ∈ db, t0.name = t.name ∧ t0.school = t.school) ∨
      (t.name = n ∧ t.school = s) := by
  intro t ht
  simp only [upsertTeacher] at ht
  split at ht
  · simp only [List.mem_map] at ht
    obtain ⟨t0, ht0, heq⟩ := ht
    left
    refine ⟨t0, ht0, ?_⟩
    by_cases hm : teacherKeyMatch n s t0 = true
    · rw [if_pos hm] at heq
      rw [← heq]
      exact ⟨rfl, rfl⟩
    · rw [if_neg hm] at heq
      rw [heq]
      exact ⟨rfl, rfl⟩
  · rw [List.mem_append] at ht
    rcases ht with ht | ht
    · exact Or.inl ⟨t, ht, rfl, rfl⟩
    · simp only [List.mem_singleton] at ht
      rw [ht]
      exact Or.inr ⟨rfl, rfl⟩

theorem foldl_upsert_key_inv (db0 : List Teacher) (school src now : String) :
    ∀ (names : List String) (db : List Teacher),
      (∀ t ∈ db, (∃ t0 ∈ db0, t0.name = t.name ∧ t0.school = t.school) ∨
        looksLikePersonNameV2 t.name = true) →
      (∀ n ∈ names, looksLikePersonNameV2 n = true) →
      ∀ t ∈ names.foldl
          (fun d n => upsertTeacher d n school (some src) now) db,
        (∃ t0 ∈ db0, t0.name = t.name ∧ t0.school = t.school) ∨
        looksLikePersonNameV2 t.name = true := by
  intro names
  induction names with
  | nil =>
    intro db hdb _ t ht
    exact hdb t ht
  | cons n ns ih =>
    intro db hdb hnames t ht
    simp only [List.foldl_cons] at ht
    refine ih (upsertTeacher db n school (some src) now) ?_
      (fun m hm => hnames m (by simp [hm])) t ht
    intro t1 ht1
    rcases mem_upsertTeacher db n school (some src) now t1 ht1 with h | h
    · obtain ⟨t0, ht0, hname, hschool⟩ := h
      rcases hdb t0 ht0 with h2 | h2
      · obtain ⟨t2, ht2, hn2, hs2⟩ := h2
        exact Or.inl ⟨t2, ht2, hn2.trans hname, hs2.trans hschool⟩
      · rw [hname] at h2
        exact Or.inr h2
    · rw [h.1]
      exact Or.inr (hnames n (by simp))

theorem runScrapeAllLoop_foldl_eq (school src now : String) :
    ∀ (names : List String) (db : List Teacher) (k : Nat),
      names.foldl
        (fun acc n =>
          if looksLikePersonNameV2 n then
            (upsertTeacher acc.1 n school (some src) now, acc.2 + 1)
          else acc) (db, k) =
      ((names.filter looksLikePersonNameV2).foldl
         (fun d n => upsertTeacher d n school (some src) now) db,
       k + (names.filter looksLikePersonNameV2).length) := by
  intro names
  induction names with
  | nil => intro db k; simp
  | cons n ns ih =>
    intro db k
    by_cases hn : looksLikePersonNameV2 n = true
    · simp only [List.foldl_cons, List.filter_cons, hn, if_true]
      rw [ih]
      simp only [List.foldl_cons, List.length_cons]
      congr 1
      omega
    · have hnf : looksLikePersonNameV2 n = false := by
        simpa using hn
      simp only [List.foldl_cons]
      rw [if_neg hn]
      have hfc : List.filter looksLikePersonNameV2 (n :: ns) =
          List.filter looksLikePersonNameV2 ns := by
        simp [List.filter_cons, hnf]
      rw [hfc]
      exact ih db k

/-- C4 (amended): the part_002 `runScrapeAll` loop re-checks the
classifier at reconciliation time: it behaves exactly like folding the
upsert over the classifier-passing candidates only (with `upserted`
the number of passing candidates), and every roster row after the run
either shares its key with a pre-existing row or has a name the
classifier accepts; the `src/index.js` loop performs no such re-check
(see the counterexample). -/
theorem C4_runScrapeAllLoop_refilters (db : List Teacher)
    (names : List String) (school src now : String) :
    runScrapeAllLoop db names school src now =
      ((names.filter looksLikePersonNameV2).foldl
         (fun d n => upsertTeacher d n school (some src) now) db,
       (names.filter looksLikePersonNameV2).length) ∧
    (∀ t ∈ (runScrapeAllLoop db names school src now).1,
       (∃ t0 ∈ db, t0.name = t.name ∧ t0.school = t.school) ∨
       looksLikePersonNameV2 t.name = true) := by
  have heq := runScrapeAllLoop_foldl_eq school src now names db 0
  constructor
  · rw [runScrapeAllLoop, heq]
    simp
  · intro t ht
    rw [runScrapeAllLoop, heq] at ht
    exact foldl_upsert_key_inv db school src now
      (names.filter looksLikePersonNameV2) db
      (fun t0 ht0 => Or.inl ⟨t0, ht0, rfl, rfl⟩)
      (fun n hn => (List.mem_filter.mp hn).2) t ht

/-- Concrete instantiation of `C4_runScrapeAllLoop_refilters`: the
part_002 loop fed one failing and one passing candidate upserts only
the passing one. -/
theorem C4_runScrapeAllLoop_refilters_witness :
    runScrapeAllLoop [] ["1234 5678", "Alice Brown"] "Skyline High School"
      "u" "t" =
      (((["1234 5678", "Alice Brown"].filter looksLikePersonNameV2).foldl
         (fun d n => upsertTeacher d n "Skyline High School" (some "u") "t")
         []),
       (["1234 5678", "Alice Brown"].filter looksLikePersonNameV2).length) :=
  (C4_runScrapeAllLoop_refilters [] ["1234 5678", "Alice Brown"]
    "Skyline High School" "u" "t").1

/-! ## C7: fetch-failure semantics of the paginated scrape -/

/-- C7 counterexample: page 1 fetches fine and already yields the name
"Alice Brown"; the fetch of pagination page 2 fails; the whole scrape
then returns that error — the collected names are discarded, so a
failure on a subsequent pagination page IS fatal to the run. -/
theorem C7_counterexample_second_page_failure_fatal :
    scrapeOneDirectoryPage fetchC7
      "https://skyline.isd411.org/staff?const_search_group_ids=289&p=1" =
      .ok (["Alice Brown"],
        ["https://skyline.isd411.org/staff?const_search_group_ids=289&p=2"]) ∧
    fetchC7 "https://skyline.isd411.org/staff?const_search_group_ids=289&p=2" =
      .error "Directory fetch failed (500)" ∧
    scrapeSkylineStaffDirectory fetchC7
      "https://skyline.isd411.org/staff?const_search_group_ids=289&p=1" =
      .error "Directory fetch failed (500)" :=
  ⟨by decide, by decide,
   scrapeLoopFuel_sound fetchC7 20 [] _ [] _ (by decide)⟩

/-- C7 (amended): a fetch failure on the FIRST page aborts the whole
scrape with that error (as the claim says), but so does a fetch
failure on ANY page about to be visited — the loop has no per-branch
error handling, so nothing collected so far is returned. -/
theorem C7_any_page_failure_aborts :
    (∀ (f : String → Except String RawPage) (seen rest allNames : List String)
       (url e : String),
       url ≠ "" → seen.contains url = false → seen.length < 10 →
       f url = .error e →
       scrapeLoop f seen (url :: rest) allNames = .error e) ∧
    (∀ (f : String → Except String RawPage) (startUrl e : String),
       startUrl ≠ "" → f startUrl = .error e →
       scrapeSkylineStaffDirectory f startUrl = .error e) := by
  have key : ∀ (f : String → Except String RawPage)
      (seen rest allNames : List String) (url e : String),
      url ≠ "" → seen.contains url = false → seen.length < 10 →
      f url = .error e →
      scrapeLoop f seen (url :: rest) allNames = .error e := by
    intro f seen rest allNames url e hu hs hl hf
    apply scrapeLoopFuel_sound f 1
    have h1 : ¬ (10 ≤ seen.length) := by omega
    have hs2 : url ∉ seen := by simpa using hs
    simp [scrapeLoopFuel, h1, hu, hs2, scrapeOneDirectoryPage, hf]
  refine ⟨key, ?_⟩
  intro f startUrl e h1 h2
  exact key f [] [] [] startUrl e h1 rfl (by decide) h2

/-- Concrete instantiation of `C7_any_page_failure_aborts`: an oracle
that fails on every fetch aborts the scrape from the first page. -/
theorem C7_any_page_failure_aborts_witness :
    scrapeSkylineStaffDirectory (fun _ => .error "boom") "u1" =
      .error "boom" :=
  C7_any_page_failure_aborts.2 (fun _ => .error "boom") "u1" "boom"
    (by decide) rfl

/-! ## C8: bounded traversal of pagination -/

theorem scrapeLoop_cap_eq (f : String → Except String RawPage)
    (seen toVisit allNames : List String) (h : 10 ≤ seen.length) :
    scrapeLoop f seen toVisit allNames =
      .ok { names := allNames, visited := seen } := by
  rw [scrapeLoop.eq_def, if_pos h]

theorem scrapeLoop_nil_eq (f : String → Except String RawPage)
    (seen allNames : List String) (h : ¬ 10 ≤ seen.length) :
    scrapeLoop f seen [] allNames =
      .ok { names := allNames, visited := seen } := by
  rw [scrapeLoop.eq_def, if_neg h]

theorem scrapeLoop_skip_eq (f : String → Except String RawPage)
    (seen rest allNames : List String) (url : String)
    (h : ¬ 10 ≤ seen.length)
    (hc : (url = "" || seen.contains url) = true) :
    scrapeLoop f seen (url :: rest) allNames =
      scrapeLoop f seen rest allNames := by
  rw [scrapeLoop.eq_def, if_neg h]
  simp only [hc, if_true]

theorem scrapeLoop_visit_eq (f : String → Except String RawPage)
    (seen rest allNames ns ps : List String) (url : String)
    (h : ¬ 10 ≤ seen.length)
    (hc : (url = "" || seen.contains url) = false)
    (hp : scrapeOneDirectoryPage f url = .ok (ns, ps)) :
    scrapeLoop f seen (url :: rest) allNames =
      scrapeLoop f (url :: seen)
        (rest ++ ps.filter (fun p => ¬ (url :: seen).contains p))
        (allNames ++ ns.filter (fun n => ¬ allNames.contains n)) := by
  rw [scrapeLoop.eq_def, if_neg h]
  simp only [hc, Bool.false_eq_true, if_false, hp]

theorem listContains_append (a b pat : List Char)
    (h : listContains b pat = true) : listContains (a ++ b) pat = true := by
  induction a with
  | nil => simpa using h
  | cons c cs ih => simp [listContains, ih]

theorem strIncludes_of_append (pre s pat : String)
    (h : strIncludes s pat = true) : strIncludes (pre ++ s) pat = true := by
  have hl : (pre ++ s).toList = pre.toList ++ s.toList := rfl
  rw [strIncludes, hl]
  exact listContains_append pre.toList s.toList pat.toList h

/-- URL resolution preserves the substrings of the href (the origin is
only ever prepended). -/
theorem resolveUrl_includes (base href pat : String)
    (h : strIncludes href pat = true) :
    strIncludes (resolveUrl base href) pat = true := by
  unfold resolveUrl
  split_ifs with h1 h2
  · exact h
  · exact strIncludes_of_append _ _ _ h
  · exact strIncludes_of_append _ _ _ h

theorem mem_dedupeAux (x : String) : ∀ (l seen : List String),
    x ∈ dedupeAux seen l → x ∈ l := by
  intro l
  induction l with
  | nil =>
    intro seen hx
    simp [dedupeAux] at hx
  | cons y ys ih =>
    intro seen hx
    simp only [dedupeAux] at hx
    split at hx
    · exact List.mem_cons_of_mem y (ih _ hx)
    · rcases List.mem_cons.mp hx with h | h
      · simp [h]
      · exact List.mem_cons_of_mem y (ih _ h)

theorem mem_dedupe (x : String) (l : List String) (h : x ∈ dedupe l) :
    x ∈ l :=
  mem_dedupeAux x l [] h

/-- Every pagination URL a fetched page contributes contains both
`/staff` and `const_search_group_ids` (the `PaginationLinkHandler`
pattern, preserved by URL resolution). -/
theorem scrapeOneDirectoryPage_links (f : String → Except String RawPage)
    (url : String) (ns ps : List String)
    (h : scrapeOneDirectoryPage f url = .ok (ns, ps)) :
    ∀ p ∈ ps, strIncludes p "/staff" = true ∧
      strIncludes p "const_search_group_ids" = true := by
  intro p hp
  simp only [scrapeOneDirectoryPage] at h
  split at h
  · exact Except.noConfusion h
  · injection h with h2
    have hps := (Prod.ext_iff.mp h2).2
    dsimp only at hps
    rw [← hps] at hp
    obtain ⟨href, hhref, hres⟩ := List.mem_map.mp hp
    have hflt : linkFilter href = true :=
      (List.mem_filter.mp (mem_dedupe _ _ hhref)).2
    simp only [linkFilter, Bool.and_eq_true] at hflt
    rw [← hres]
    exact ⟨resolveUrl_includes url href "/staff" hflt.1.2,
           resolveUrl_includes url href "const_search_group_ids" hflt.2⟩

/-- Invariant of the traversal loop: starting from a duplicate-free
visited set of at most 10 URLs whose members satisfy `G`, and a queue
whose members satisfy `G`, a completed run yields a duplicate-free
visited set of at most 10 URLs all satisfying `G` — provided every
pagination link any page contributes satisfies `G`. -/
theorem scrapeLoop_ok_inv (f : String → Except String RawPage)
    (G : String → Prop)
    (hG : ∀ url ns ps, scrapeOneDirectoryPage f url = .ok (ns, ps) →
      ∀ p ∈ ps, G p) :
    ∀ (seen toVisit allNames : List String) (r : ScrapeOutput),
      scrapeLoop f seen toVisit allNames = .ok r →
      seen.Nodup → seen.length ≤ 10 →
      (∀ u ∈ seen, G u) → (∀ u ∈ toVisit, G u) →
      r.visited.Nodup ∧ r.visited.length ≤ 10 ∧ ∀ u ∈ r.visited, G u := by
  intro seen toVisit allNames
  refine scrapeLoop.induct f
    (fun seen toVisit allNames =>
      ∀ (r : ScrapeOutput),
        scrapeLoop f seen toVisit allNames = .ok r →
        seen.Nodup → seen.length ≤ 10 →
        (∀ u ∈ seen, G u) → (∀ u ∈ toVisit, G u) →
        r.visited.Nodup ∧ r.visited.length ≤ 10 ∧ ∀ u ∈ r.visited, G u)
    ?_ ?_ ?_ ?_ ?_ seen toVisit allNames
  · intro seen toVisit allNames hcap r heq hnd hlen hGs hGt
    rw [scrapeLoop_cap_eq f seen toVisit allNames hcap] at heq
    cases heq
    exact ⟨hnd, hlen, hGs⟩
  · intro seen allNames hless r heq hnd hlen hGs hGt
    rw [scrapeLoop_nil_eq f seen allNames hless] at heq
    cases heq
    exact ⟨hnd, hlen, hGs⟩
  · intro seen allNames hless x xs hcond ih r heq hnd hlen hGs hGt
    rw [scrapeLoop_skip_eq f seen xs allNames x hless hcond] at heq
    exact ih r heq hnd hlen hGs (fun u hu => hGt u (List.mem_cons_of_mem x hu))
  · intro seen allNames hless x xs hcond e herr r heq hnd hlen hGs hGt
    have hcf : (x = "" || seen.contains x) = false := by
      simpa using hcond
    rw [scrapeLoop.eq_def, if_neg hless] at heq
    simp only [hcf, Bool.false_eq_true, if_false, herr] at heq
    exact Except.noConfusion heq
  · intro seen allNames hless x xs hcond names pageUrls hok ih r heq hnd hlen
      hGs hGt
    have hcf : (x = "" || seen.contains x) = false := by
      simpa using hcond
    have hxnot : x ∉ seen := by
      simp only [Bool.or_eq_false_iff] at hcf
      simpa using hcf.2
    rw [scrapeLoop_visit_eq f seen xs allNames names pageUrls x hless hcf
      hok] at heq
    refine ih r heq (List.nodup_cons.mpr ⟨hxnot, hnd⟩) ?_ ?_ ?_
    · simp only [List.length_cons]
      omega
    · intro u hu
      rcases List.mem_cons.mp hu with h | h
      · rw [h]
        exact hGt x (by simp)
      · exact hGs u h
    · intro u hu
      rcases List.mem_append.mp hu with h | h
      · exact hGt u (List.mem_cons_of_mem x h)
      · exact hG x names pageUrls hok u (List.mem_filter.mp h).1

/-- C8 (amended): every completed directory scrape visits each URL at
most once (the visited set is duplicate-free), visits at most 10 pages
(the hard cap), and — beyond the start URL — only follows links whose
URL contains both `/staff` and `const_search_group_ids` (a substring
pattern check; NOT a same-directory restriction: a link to another
host matching the pattern is followed, see the counterexample).
Termination of the traversal is witnessed by `scrapeLoop` being a
total function. -/
theorem C8_scrape_bounded_traversal (f : String → Except String RawPage)
    (startUrl : String) (r : ScrapeOutput)
    (h : scrapeSkylineStaffDirectory f startUrl = .ok r) :
    r.visited.Nodup ∧ r.visited.length ≤ 10 ∧
    ∀ u ∈ r.visited, u = startUrl ∨
      (strIncludes u "/staff" = true ∧
       strIncludes u "const_search_group_ids" = true) := by
  refine scrapeLoop_ok_inv f
    (fun u => u = startUrl ∨
      (strIncludes u "/staff" = true ∧
       strIncludes u "const_search_group_ids" = true))
    ?_ [] [startUrl] [] r h (by simp) (by simp) (by simp) ?_
  · intro url ns ps hok p hp
    exact Or.inr (scrapeOneDirectoryPage_links f url ns ps hok p hp)
  · intro u hu
    rw [List.mem_singleton.mp hu]
    exact Or.inl rfl

/-- C8 counterexample: the traversal fetches the cross-host URL (it
appears in the visited set), although it does not point back to the
Skyline staff directory — the filter is a substring pattern check, not
a same-directory restriction. -/
theorem C8_counterexample_cross_host_followed :
    scrapeSkylineStaffDirectory fetchC8
      "https://skyline.isd411.org/staff?const_search_group_ids=289" =
      .ok { names := [],
            visited := ["https://attacker.example/staff?const_search_group_ids=1",
                        "https://skyline.isd411.org/staff?const_search_group_ids=289"] } ∧
    ("https://skyline.isd411.org/staff".toList.isPrefixOf
      "https://attacker.example/staff?const_search_group_ids=1".toList) =
      false :=
  ⟨scrapeLoopFuel_sound fetchC8 20 [] _ [] _ (by decide), by decide⟩

/-- Concrete instantiation of `C8_scrape_bounded_traversal` on the
two-page oracle. -/
theorem C8_scrape_bounded_traversal_witness :
    (["https://attacker.example/staff?const_search_group_ids=1",
      "https://skyline.isd411.org/staff?const_search_group_ids=289"] :
        List String).Nodup ∧
    (["https://attacker.example/staff?const_search_group_ids=1",
      "https://skyline.isd411.org/staff?const_search_group_ids=289"] :
        List String).length ≤ 10 := by
  have h := C8_scrape_bounded_traversal fetchC8
    "https://skyline.isd411.org/staff?const_search_group_ids=289"
    { names := [],
      visited := ["https://attacker.example/staff?const_search_group_ids=1",
                  "https://skyline.isd411.org/staff?const_search_group_ids=289"] }
    (scrapeLoopFuel_sound fetchC8 20 [] _ [] _ (by decide))
  exact ⟨h.1, h.2.1⟩
